import Mathlib

/-!
Shallow embedding of the orchestration core of the AoE2 DE Archiver:
the single-flight task guard, the step-status table, the event-channel
messages, the background-worker reporting pattern, the progress-sampler
fraction and the run-all pipeline sequencer, together with theorems
checking the specification claims about them.

Mutex-protected fields are modelled as plain fields and each method as a
pure state transformer, matching the lock-modify-unlock critical sections
of the code; lock poisoning is not modelled (no thread in the program
panics while holding a lock on these fields).
-/

namespace Archiver

/-- Task (src/src/ctx.rs): identifier of the kind of exclusive operation
currently running. -/
inductive Task where
  | Copy
  | Goldberg
  | Companion
  | Launcher
deriving DecidableEq, Repr

/-- Debug formatting of a Task, as produced for the message of the bail
in Context::set_task. -/
def Task.debugStr : Task → String
  | .Copy => "Copy"
  | .Goldberg => "Goldberg"
  | .Companion => "Companion"
  | .Launcher => "Launcher"

/-- StepStatus (src/src/ctx.rs, duplicated in src/src/main.rs): per-step
pipeline state. -/
inductive StepStatus where
  | NotStarted
  | InProgress
  | Completed
  | Failed (msg : String)
deriving DecidableEq, Repr

/-- AppUpdate (src/src/main.rs): the messages sent on the mpsc event
channel. The f32 progress fraction is modelled over ℚ. -/
inductive AppUpdate where
  | Idle
  | Working (msg : String)
  | Progress (p : Option (String × ℚ))
  | Error (msg : String)
  | StepStatusChanged
  | DiskSpaceInfo (required available : Nat)
deriving DecidableEq

/-- The orchestration-relevant fields of Context (src/src/ctx.rs): the
current exclusive task and the step-status table. The Rust table has type
[StepStatus; 4]; it is modelled as a list, and the length-4 fact is stated
as a hypothesis where a claim needs it. -/
structure Context where
  current_task : Option Task
  step_status : List StepStatus
deriving DecidableEq

/-- Context::set_step_status (src/src/ctx.rs lines 70-78, identical logic
in src/src/main.rs): when the index is in bounds the slot is overwritten,
otherwise the table is left unchanged; in both cases a StepStatusChanged
event is then sent on the channel. Returns the updated context together
with the events sent. The function is total: no path fails, panics or
blocks the caller. -/
def Context.set_step_status (ctx : Context) (step : Nat) (status : StepStatus) :
    Context × List AppUpdate :=
  ({ ctx with
      step_status :=
        if step < ctx.step_status.length then ctx.step_status.set step status
        else ctx.step_status },
   [AppUpdate.StepStatusChanged])

/-- Context::is_busy (src/src/ctx.rs lines 94-96): non-blocking read of
whether a task is current. -/
def Context.is_busy (ctx : Context) : Bool :=
  ctx.current_task.isSome

/-- Context::set_task (src/src/ctx.rs lines 82-92): fails fast (the bail,
no waiting and no queueing) when a task is already current, otherwise
records the requested task before returning. A successful return stands
for the returned TaskReset guard, the slot being occupied. -/
def Context.set_task (ctx : Context) (task : Task) : Except String Context :=
  match ctx.current_task with
  | some existing_task =>
      Except.error ("Task already running: " ++ existing_task.debugStr)
  | none => Except.ok { ctx with current_task := some task }

/-- TaskReset::drop (src/src/ctx.rs lines 115-119): clears the
current-task slot. Rust runs this drop glue on every exit of the owning
scope of the guard: normal completion, early error return and unwind, so
one function models all three exit kinds. -/
def TaskReset.drop (ctx : Context) : Context :=
  { ctx with current_task := none }

/-- The step table at startup (src/src/ctx.rs Context::new and
src/src/main.rs: four NotStarted slots). -/
def initial_steps : List StepStatus :=
  [StepStatus.NotStarted, StepStatus.NotStarted,
   StepStatus.NotStarted, StepStatus.NotStarted]

/-- A context as built at startup: no current task, all steps NotStarted. -/
def initial_ctx : Context :=
  { current_task := none, step_status := initial_steps }

/-- A context in which a task is already recorded as current. -/
def busy_ctx : Context :=
  { current_task := some Task.Copy, step_status := initial_steps }

/-- C1: while a task is already recorded as current, set_task returns an
error immediately (the embedding is a total function: no waiting, no
queueing); when no task is current, set_task succeeds and the returned
state has the requested task recorded as current. -/
theorem set_task_single_flight (ctx : Context) (task : Task) :
    (ctx.is_busy = true → ∃ e, ctx.set_task task = Except.error e) ∧
    (ctx.is_busy = false →
      ctx.set_task task = Except.ok { ctx with current_task := some task }) := by
  constructor
  · intro h
    rcases hc : ctx.current_task with _ | t
    · simp [Context.is_busy, hc] at h
    · refine ⟨"Task already running: " ++ t.debugStr, ?_⟩
      simp [Context.set_task, hc]
  · intro h
    rcases hc : ctx.current_task with _ | t
    · simp [Context.set_task, hc]
    · simp [Context.is_busy, hc] at h

/-- Witness for C1: a concrete busy context rejects a second acquisition,
and the concrete startup context accepts one and records the task. -/
theorem set_task_single_flight_witness :
    (∃ e, busy_ctx.set_task Task.Goldberg = Except.error e) ∧
    initial_ctx.set_task Task.Copy =
      Except.ok { initial_ctx with current_task := some Task.Copy } :=
  ⟨(set_task_single_flight busy_ctx Task.Goldberg).1 (by decide),
   (set_task_single_flight initial_ctx Task.Copy).2 (by decide)⟩

/-- C3: after the drop of a TaskReset guard (run by Rust on every exit of
the owning scope: normal completion, error return or unwind), the
current-task slot is cleared, is_busy is false, and a subsequent set_task
succeeds, recording the new task. -/
theorem guard_release_clears (ctx : Context) (task : Task) :
    (TaskReset.drop ctx).current_task = none ∧
    (TaskReset.drop ctx).is_busy = false ∧
    (TaskReset.drop ctx).set_task task =
      Except.ok { TaskReset.drop ctx with current_task := some task } := by
  refine ⟨rfl, rfl, ?_⟩
  simp [TaskReset.drop, Context.set_task]

/-- C7: for an in-range index, set_step_status overwrites exactly the
addressed slot, leaves every other slot and the current task unchanged,
and sends a StepStatusChanged event. -/
theorem set_step_status_in_range (ctx : Context) (i : Nat) (s : StepStatus)
    (hlen : ctx.step_status.length = 4) (hi : i < 4) :
    ((ctx.set_step_status i s).1.step_status)[i]? = some s ∧
    (∀ j : Nat, j ≠ i →
      ((ctx.set_step_status i s).1.step_status)[j]? = ctx.step_status[j]?) ∧
    (ctx.set_step_status i s).2 = [AppUpdate.StepStatusChanged] ∧
    (ctx.set_step_status i s).1.current_task = ctx.current_task := by
  have hlt : i < ctx.step_status.length := by omega
  refine ⟨?_, ?_, rfl, ?_⟩
  · simp [Context.set_step_status, hlt]
  · intro j hj
    simp [Context.set_step_status, hlt, List.getElem?_set_ne (Ne.symm hj)]
  · simp [Context.set_step_status]

/-- Witness for C7: writing Completed to slot 2 of the startup table
stores it there, leaves slot 0 unchanged and emits the event. -/
theorem set_step_status_in_range_witness :
    ((initial_ctx.set_step_status 2 StepStatus.Completed).1.step_status)[2]? =
      some StepStatus.Completed ∧
    ((initial_ctx.set_step_status 2 StepStatus.Completed).1.step_status)[0]? =
      initial_ctx.step_status[0]? ∧
    (initial_ctx.set_step_status 2 StepStatus.Completed).2 =
      [AppUpdate.StepStatusChanged] :=
  ⟨(set_step_status_in_range initial_ctx 2 StepStatus.Completed
      (by decide) (by decide)).1,
   (set_step_status_in_range initial_ctx 2 StepStatus.Completed
      (by decide) (by decide)).2.1 0 (by decide),
   (set_step_status_in_range initial_ctx 2 StepStatus.Completed
      (by decide) (by decide)).2.2.1⟩

/-- C8: for an out-of-range index, set_step_status leaves the whole
context unchanged and still returns normally, sending the event; the
embedding is a total function, so no path fails, panics or blocks. -/
theorem set_step_status_out_of_range (ctx : Context) (i : Nat) (s : StepStatus)
    (hlen : ctx.step_status.length = 4) (hi : 4 ≤ i) :
    (ctx.set_step_status i s).1 = ctx ∧
    (ctx.set_step_status i s).2 = [AppUpdate.StepStatusChanged] := by
  have hge : ¬ i < ctx.step_status.length := by omega
  exact ⟨by simp [Context.set_step_status, hge], rfl⟩

/-- Witness for C8: writing to slot 7 of the startup table changes
nothing and still emits the event. -/
theorem set_step_status_out_of_range_witness :
    (initial_ctx.set_step_status 7 StepStatus.Completed).1 = initial_ctx ∧
    (initial_ctx.set_step_status 7 StepStatus.Completed).2 =
      [AppUpdate.StepStatusChanged] :=
  set_step_status_out_of_range initial_ctx 7 StepStatus.Completed
    (by decide) (by decide)

/-- C10: every call to set_step_status sends exactly one StepStatusChanged
event, in range or not; and there is a call (out of range) that emits the
event while leaving the table unchanged, so an observed event does not
imply that a slot changed. -/
theorem step_status_changed_always_emitted :
    (∀ (ctx : Context) (i : Nat) (s : StepStatus),
      (ctx.set_step_status i s).2 = [AppUpdate.StepStatusChanged]) ∧
    (initial_ctx.set_step_status 4 StepStatus.Completed).2 =
      [AppUpdate.StepStatusChanged] ∧
    (initial_ctx.set_step_status 4 StepStatus.Completed).1 = initial_ctx :=
  ⟨fun _ _ _ => rfl, rfl, by decide⟩

/-- The fraction computed by the progress-sampling loop in
copy_game_folder (src/src/main.rs lines 667-691), which evaluates
(dest_size as f64 / dir_size as f64).min(1.0), modelled over ℚ. When
dir_size = 0 the f64 quotient is +infinity (dest_size > 0) or NaN
(dest_size = 0); f64::min returns its other operand on NaN and 1.0 on
+infinity, so both subcases yield 1.0 and that branch is modelled as 1.
The later narrowing to f32 preserves membership in [0, 1]. -/
def pct_complete (dest_size dir_size : Nat) : ℚ :=
  if dir_size = 0 then 1
  else min ((dest_size : ℚ) / (dir_size : ℚ)) 1

/-- The Progress event the sampling loop then emits with that fraction
(the label carries the rendered percentage; its text is not modelled). -/
def progress_event (dest_size dir_size : Nat) : AppUpdate :=
  AppUpdate.Progress (some ("Copying...", pct_complete dest_size dir_size))

/-- C9: for every sampled destination size and precomputed total,
including a destination size exceeding the total and a total of zero, the
emitted fraction lies in the closed interval from 0 to 1. -/
theorem progress_fraction_clamped (dest_size dir_size : Nat) :
    0 ≤ pct_complete dest_size dir_size ∧ pct_complete dest_size dir_size ≤ 1 := by
  unfold pct_complete
  split
  · norm_num
  · exact ⟨le_min (div_nonneg (Nat.cast_nonneg _) (Nat.cast_nonneg _)) zero_le_one,
      min_le_right _ _⟩

/-- A log line emitted through the tracing calls of the workers. -/
inductive LogEvent where
  | info (msg : String)
  | error (msg : String)
deriving DecidableEq

/-- The status writes of the worker thread spawned by spawn_apply
(src/src/goldberg.rs lines 45-64), as a function of the result of
apply_goldberg: InProgress first, then Completed on success or Failed
with the formatted error on failure. -/
def goldberg_worker_writes (res : Except String Unit) : List (Nat × StepStatus) :=
  (1, StepStatus.InProgress) ::
    match res with
    | .ok _ => [(1, StepStatus.Completed)]
    | .error err => [(1, StepStatus.Failed err)]

/-- The log line of that worker (info on success, error on failure). -/
def goldberg_worker_log (res : Except String Unit) : LogEvent :=
  match res with
  | .ok _ => .info "Goldberg emulator applied successfully"
  | .error err => .error ("Goldberg installation failed: " ++ err)

/-- One run of the worker thread spawned by
spawn_install_launcher_companion (src/src/aoe/aoe2/companion.rs lines
16-38): its status writes, its log line, and the values it sends on the
rendezvous channel before its sender is dropped when the thread ends. On
failure nothing is sent; the sender is simply dropped. -/
structure CompanionWorkerRun where
  writes : List (Nat × StepStatus)
  log : LogEvent
  sent : List Unit
deriving DecidableEq

/-- The companion worker (src/src/aoe/aoe2/companion.rs lines 16-38) as a
function of the result of install_launcher_companion. -/
def companion_worker (res : Except String Unit) : CompanionWorkerRun where
  writes := (2, StepStatus.InProgress) ::
    match res with
    | .ok _ => [(2, StepStatus.Completed)]
    | .error err => [(2, StepStatus.Failed err)]
  log := match res with
    | .ok _ => .info "Companion installed successfully"
    | .error err => .error ("Companion installation failed: " ++ err)
  sent := match res with
    | .ok _ => [()]
    | .error _ => []

/-- What a caller blocked on Receiver::recv observes once the worker
thread has finished: a received value when one was sent, and a RecvError
disconnection when the channel is empty and every sender has been dropped
(std::sync::mpsc semantics); either way the caller is unblocked and can
tell success from failure. -/
inductive RecvOutcome where
  | received
  | disconnected
deriving DecidableEq

/-- Receive outcome for the waiting caller of the companion worker. -/
def recv_outcome (run : CompanionWorkerRun) : RecvOutcome :=
  match run.sent with
  | _ :: _ => .received
  | [] => .disconnected

/-- C4: when the collaborator operation fails, the goldberg worker writes
Failed with the formatted message to its slot and logs the failure (it
requests no completion signal), and the companion worker does the same
for its slot and, having handed a completion channel to its caller,
unblocks a waiting receive with the failure indication (disconnection:
nothing was sent and the sender is dropped). -/
theorem worker_failure_reporting (err : String) :
    ((1, StepStatus.Failed err) ∈ goldberg_worker_writes (.error err) ∧
      goldberg_worker_log (.error err) =
        .error ("Goldberg installation failed: " ++ err)) ∧
    ((2, StepStatus.Failed err) ∈ (companion_worker (.error err)).writes ∧
      (companion_worker (.error err)).log =
        .error ("Companion installation failed: " ++ err) ∧
      recv_outcome (companion_worker (.error err)) = .disconnected) := by
  refine ⟨⟨?_, rfl⟩, ⟨?_, rfl, rfl⟩⟩ <;>
    simp [goldberg_worker_writes, companion_worker]

/-- The status writes of the worker thread spawned by
spawn_copy_game_folder (src/src/main.rs lines 587-618), as a function of
the result of copy_game_folder. -/
def copy_worker_writes (res : Except String Unit) : List (Nat × StepStatus) :=
  (0, StepStatus.InProgress) ::
    match res with
    | .ok _ => [(0, StepStatus.Completed)]
    | .error err => [(0, StepStatus.Failed err)]

/-- A step-spawning entry point, split into the status writes the calling
thread performs before the thread-spawn call returns, and the writes the
spawned worker performs as a function of the operation result. The worker
writes run on the new thread, concurrently with the return of the spawn
call: nothing orders them before it. -/
structure SpawnedStep where
  caller_writes : List (Nat × StepStatus)
  worker_writes : Except String Unit → List (Nat × StepStatus)

/-- spawn_apply (src/src/goldberg.rs lines 45-64): the calling thread
acquires the task guard, spawns the thread and returns; it performs no
status write itself, so caller_writes is empty and every status write,
including the InProgress one, is in the worker. -/
def spawn_apply_step : SpawnedStep :=
  { caller_writes := [], worker_writes := goldberg_worker_writes }

/-- spawn_install_launcher_companion (src/src/aoe/aoe2/companion.rs lines
16-38): the calling thread acquires the guard, builds the rendezvous
channel, spawns and returns; it performs no status write itself. -/
def spawn_companion_step : SpawnedStep :=
  { caller_writes := [],
    worker_writes := fun res => (companion_worker res).writes }

/-- spawn_copy_game_folder (src/src/main.rs lines 587-618), on the path
where the source directory is present and the thread is spawned: the
calling thread validates, spawns and returns; it performs no status write
itself. -/
def spawn_copy_step : SpawnedStep :=
  { caller_writes := [], worker_writes := copy_worker_writes }

/-- C5 counterexample: at the concrete entry point spawn_apply, the claim
that the InProgress write for its step (slot 1) is performed before the
spawn call returns is false: the caller-side write list does not contain
it (it is empty; the write happens on the spawned thread). -/
theorem inprogress_not_before_spawn_return :
    (1, StepStatus.InProgress) ∉ spawn_apply_step.caller_writes := by
  simp [spawn_apply_step]

/-- C5 amended: each step-spawning entry point performs no status write
before the spawn call returns; instead the spawned worker sets its step
InProgress as its first status write, before the terminal write for the
operation outcome, so an observer may still read NotStarted after the
spawn call has returned. -/
theorem inprogress_is_first_worker_write (res : Except String Unit) :
    spawn_apply_step.caller_writes = [] ∧
    (spawn_apply_step.worker_writes res).head? =
      some (1, StepStatus.InProgress) ∧
    spawn_companion_step.caller_writes = [] ∧
    (spawn_companion_step.worker_writes res).head? =
      some (2, StepStatus.InProgress) ∧
    spawn_copy_step.caller_writes = [] ∧
    (spawn_copy_step.worker_writes res).head? =
      some (0, StepStatus.InProgress) := by
  refine ⟨rfl, ?_, rfl, ?_, rfl, ?_⟩ <;> cases res <;> rfl

/-- The step-status writes performed by the run-all worker thread
(src/src/main.rs lines 706-782), as a function of the results of the four
step operations (copy_game_folder, apply_goldberg,
install_launcher_companion, install_launcher): each step in order is
marked InProgress, its operation runs, and the step is marked Completed
(continue to the next step) or Failed with the formatted error message
(return from the worker at once). -/
def run_all_writes (ops : Fin 4 → Except String Unit) : List (Nat × StepStatus) :=
  (0, StepStatus.InProgress) ::
    match ops 0 with
    | .error e => [(0, StepStatus.Failed e)]
    | .ok _ =>
      (0, StepStatus.Completed) :: (1, StepStatus.InProgress) ::
        match ops 1 with
        | .error e => [(1, StepStatus.Failed e)]
        | .ok _ =>
          (1, StepStatus.Completed) :: (2, StepStatus.InProgress) ::
            match ops 2 with
            | .error e => [(2, StepStatus.Failed e)]
            | .ok _ =>
              (2, StepStatus.Completed) :: (3, StepStatus.InProgress) ::
                match ops 3 with
                | .error e => [(3, StepStatus.Failed e)]
                | .ok _ => [(3, StepStatus.Completed)]

/-- Applying a sequence of step writes through Context.set_step_status,
discarding the emitted events. -/
def apply_writes (ctx : Context) (ws : List (Nat × StepStatus)) : Context :=
  ws.foldl (fun c w => (c.set_step_status w.1 w.2).1) ctx

/-- Final step table of a run-all execution started from the startup
state. -/
def run_all_final (ops : Fin 4 → Except String Unit) : List StepStatus :=
  (apply_writes initial_ctx (run_all_writes ops)).step_status

/-- Run-all write trace when the first operation fails. -/
theorem run_all_writes_err0 (ops : Fin 4 → Except String Unit) (msg : String)
    (h0 : ops 0 = .error msg) :
    run_all_writes ops =
      [(0, StepStatus.InProgress), (0, StepStatus.Failed msg)] := by
  simp [run_all_writes, h0]

/-- Run-all write trace when the second operation fails. -/
theorem run_all_writes_err1 (ops : Fin 4 → Except String Unit) (msg : String)
    (h0 : ops 0 = .ok ()) (h1 : ops 1 = .error msg) :
    run_all_writes ops =
      [(0, StepStatus.InProgress), (0, StepStatus.Completed),
       (1, StepStatus.InProgress), (1, StepStatus.Failed msg)] := by
  simp [run_all_writes, h0, h1]

/-- Run-all write trace when the third operation fails. -/
theorem run_all_writes_err2 (ops : Fin 4 → Except String Unit) (msg : String)
    (h0 : ops 0 = .ok ()) (h1 : ops 1 = .ok ()) (h2 : ops 2 = .error msg) :
    run_all_writes ops =
      [(0, StepStatus.InProgress), (0, StepStatus.Completed),
       (1, StepStatus.InProgress), (1, StepStatus.Completed),
       (2, StepStatus.InProgress), (2, StepStatus.Failed msg)] := by
  simp [run_all_writes, h0, h1, h2]

/-- Run-all write trace when the fourth operation fails. -/
theorem run_all_writes_err3 (ops : Fin 4 → Except String Unit) (msg : String)
    (h0 : ops 0 = .ok ()) (h1 : ops 1 = .ok ()) (h2 : ops 2 = .ok ())
    (h3 : ops 3 = .error msg) :
    run_all_writes ops =
      [(0, StepStatus.InProgress), (0, StepStatus.Completed),
       (1, StepStatus.InProgress), (1, StepStatus.Completed),
       (2, StepStatus.InProgress), (2, StepStatus.Completed),
       (3, StepStatus.InProgress), (3, StepStatus.Failed msg)] := by
  simp [run_all_writes, h0, h1, h2, h3]

/-- C2: in a run-all execution where the operation of step k fails (and
the earlier operations succeed), the final step table reads Completed for
every step before k, Failed with that message at k, and NotStarted for
every step after k; moreover every status write of the run touches a step
index at most k, so no later step is ever started. -/
theorem run_all_fail_fast (ops : Fin 4 → Except String Unit) (k : Fin 4)
    (msg : String) (hk : ops k = .error msg)
    (hprev : ∀ j : Fin 4, j < k → ops j = .ok ()) :
    (∀ j : Fin 4, j < k →
      (run_all_final ops)[j.val]? = some StepStatus.Completed) ∧
    (run_all_final ops)[k.val]? = some (StepStatus.Failed msg) ∧
    (∀ j : Fin 4, k < j →
      (run_all_final ops)[j.val]? = some StepStatus.NotStarted) ∧
    (∀ p ∈ run_all_writes ops, p.1 ≤ k.val) := by
  fin_cases k
  · have hw := run_all_writes_err0 ops msg hk
    have htab : run_all_final ops =
        [StepStatus.Failed msg, StepStatus.NotStarted,
         StepStatus.NotStarted, StepStatus.NotStarted] := by
      simp [run_all_final, hw, apply_writes, initial_ctx, initial_steps,
        Context.set_step_status]
    refine ⟨?_, by simp [htab], ?_, ?_⟩
    · intro j hj
      fin_cases j <;> exact absurd hj (by decide)
    · intro j hj
      fin_cases j <;> first | exact absurd hj (by decide) | simp [htab]
    · intro p hp
      rw [hw] at hp
      fin_cases hp <;> simp
  · have h0 : ops 0 = .ok () := hprev 0 (by decide)
    have hw := run_all_writes_err1 ops msg h0 hk
    have htab : run_all_final ops =
        [StepStatus.Completed, StepStatus.Failed msg,
         StepStatus.NotStarted, StepStatus.NotStarted] := by
      simp [run_all_final, hw, apply_writes, initial_ctx, initial_steps,
        Context.set_step_status]
    refine ⟨?_, by simp [htab], ?_, ?_⟩
    · intro j hj
      fin_cases j <;> first | exact absurd hj (by decide) | simp [htab]
    · intro j hj
      fin_cases j <;> first | exact absurd hj (by decide) | simp [htab]
    · intro p hp
      rw [hw] at hp
      fin_cases hp <;> simp
  · have h0 : ops 0 = .ok () := hprev 0 (by decide)
    have h1 : ops 1 = .ok () := hprev 1 (by decide)
    have hw := run_all_writes_err2 ops msg h0 h1 hk
    have htab : run_all_final ops =
        [StepStatus.Completed, StepStatus.Completed,
         StepStatus.Failed msg, StepStatus.NotStarted] := by
      simp [run_all_final, hw, apply_writes, initial_ctx, initial_steps,
        Context.set_step_status]
    refine ⟨?_, by simp [htab], ?_, ?_⟩
    · intro j hj
      fin_cases j <;> first | exact absurd hj (by decide) | simp [htab]
    · intro j hj
      fin_cases j <;> first | exact absurd hj (by decide) | simp [htab]
    · intro p hp
      rw [hw] at hp
      fin_cases hp <;> simp
  · have h0 : ops 0 = .ok () := hprev 0 (by decide)
    have h1 : ops 1 = .ok () := hprev 1 (by decide)
    have h2 : ops 2 = .ok () := hprev 2 (by decide)
    have hw := run_all_writes_err3 ops msg h0 h1 h2 hk
    have htab : run_all_final ops =
        [StepStatus.Completed, StepStatus.Completed,
         StepStatus.Completed, StepStatus.Failed msg] := by
      simp [run_all_final, hw, apply_writes, initial_ctx, initial_steps,
        Context.set_step_status]
    refine ⟨?_, by simp [htab], ?_, ?_⟩
    · intro j hj
      fin_cases j <;> first | exact absurd hj (by decide) | simp [htab]
    · intro j hj
      fin_cases j <;> exact absurd hj (by decide)
    · intro p hp
      rw [hw] at hp
      fin_cases hp <;> simp

/-- The operations of Scenario B of the specification: step 1 fails with
the message disk full, every other step succeeds. -/
def scenario_b_ops : Fin 4 → Except String Unit :=
  fun i => if i.val = 1 then .error "disk full" else .ok ()

/-- Witness for C2, Scenario B: running all steps with a failure at step
1 ends with table entries Completed, Failed disk full, NotStarted,
NotStarted, and no write touches a step beyond index 1. -/
theorem run_all_fail_fast_witness :
    (run_all_final scenario_b_ops)[0]? = some StepStatus.Completed ∧
    (run_all_final scenario_b_ops)[1]? = some (StepStatus.Failed "disk full") ∧
    (run_all_final scenario_b_ops)[2]? = some StepStatus.NotStarted ∧
    (run_all_final scenario_b_ops)[3]? = some StepStatus.NotStarted := by
  have h := run_all_fail_fast scenario_b_ops 1 "disk full" rfl
    (by intro j hj
        fin_cases j
        · rfl
        · exact absurd hj (by decide)
        · exact absurd hj (by decide)
        · exact absurd hj (by decide))
  exact ⟨h.1 0 (by decide), h.2.1, h.2.2.1 2 (by decide), h.2.2.1 3 (by decide)⟩

/-- Run-all write trace when every operation succeeds. -/
theorem run_all_writes_ok (ops : Fin 4 → Except String Unit)
    (h0 : ops 0 = .ok ()) (h1 : ops 1 = .ok ()) (h2 : ops 2 = .ok ())
    (h3 : ops 3 = .ok ()) :
    run_all_writes ops =
      [(0, StepStatus.InProgress), (0, StepStatus.Completed),
       (1, StepStatus.InProgress), (1, StepStatus.Completed),
       (2, StepStatus.InProgress), (2, StepStatus.Completed),
       (3, StepStatus.InProgress), (3, StepStatus.Completed)] := by
  simp [run_all_writes, h0, h1, h2, h3]

/-- Rank of a status along the allowed progression: NotStarted, then
InProgress, then a terminal state (Completed or Failed). A regression of
a slot (InProgress back to NotStarted, or a terminal state back to
InProgress or NotStarted) is exactly a rank decrease. -/
def rank : StepStatus → Nat
  | .NotStarted => 0
  | .InProgress => 1
  | .Completed => 2
  | .Failed _ => 2

/-- The sequence of values a write trace stores into slot i, in order. -/
def writes_to (i : Nat) (ws : List (Nat × StepStatus)) : List StepStatus :=
  (ws.filter (fun w => w.1 == i)).map Prod.snd

/-- C6: within one run, for every slot, the sequence of values written to
that slot (starting from its initial NotStarted value) never decreases in
rank: no write moves a slot from InProgress back to NotStarted, nor from
Completed or Failed back to InProgress or NotStarted. This holds for the
run-all worker under every assignment of operation results, and for the
single-step goldberg worker under every operation result. -/
theorem step_slot_monotonic (ops : Fin 4 → Except String Unit)
    (res : Except String Unit) (i : Nat) :
    List.Chain' (fun a b => rank a ≤ rank b)
      (StepStatus.NotStarted :: writes_to i (run_all_writes ops)) ∧
    List.Chain' (fun a b => rank a ≤ rank b)
      (StepStatus.NotStarted :: writes_to i (goldberg_worker_writes res)) := by
  constructor
  · rcases h0 : ops 0 with e0 | u0
    · rw [run_all_writes_err0 ops e0 h0]
      by_cases hi0 : (0 : Nat) = i <;>
        · simp_all [writes_to, rank, List.Chain']
          try omega
    · obtain ⟨⟩ := u0
      rcases h1 : ops 1 with e1 | u1
      · rw [run_all_writes_err1 ops e1 h0 h1]
        by_cases hi0 : (0 : Nat) = i <;> by_cases hi1 : (1 : Nat) = i <;>
          simp_all [writes_to, rank, List.Chain'] <;> omega
      · obtain ⟨⟩ := u1
        rcases h2 : ops 2 with e2 | u2
        · rw [run_all_writes_err2 ops e2 h0 h1 h2]
          by_cases hi0 : (0 : Nat) = i <;> by_cases hi1 : (1 : Nat) = i <;>
            by_cases hi2 : (2 : Nat) = i <;>
            simp_all [writes_to, rank, List.Chain'] <;> omega
        · obtain ⟨⟩ := u2
          rcases h3 : ops 3 with e3 | u3
          · rw [run_all_writes_err3 ops e3 h0 h1 h2 h3]
            by_cases hi0 : (0 : Nat) = i <;> by_cases hi1 : (1 : Nat) = i <;>
              by_cases hi2 : (2 : Nat) = i <;> by_cases hi3 : (3 : Nat) = i <;>
              simp_all [writes_to, rank, List.Chain'] <;> omega
          · obtain ⟨⟩ := u3
            rw [run_all_writes_ok ops h0 h1 h2 h3]
            by_cases hi0 : (0 : Nat) = i <;> by_cases hi1 : (1 : Nat) = i <;>
              by_cases hi2 : (2 : Nat) = i <;> by_cases hi3 : (3 : Nat) = i <;>
              simp_all [writes_to, rank, List.Chain'] <;> omega
  · cases res <;> by_cases hi1 : (1 : Nat) = i <;>
      simp_all [goldberg_worker_writes, writes_to, rank, List.Chain'] <;> omega

end Archiver
